import Mathlib

/-!
Verification of the Cartrita multi-agent orchestration core.

This file gives a shallow embedding, in Lean, of the routing, tool-permission,
schema-validation, transport and bridge logic of the repository, and proves or
refutes the specification's claims about them.  Python strings are modelled by
`String`, Python lists and dicts by `List` and association lists, Python floats
by `ℚ` (exact arithmetic), and `datetime` values by an abstract integer stamp.
Each definition is translated from the named source function; definitions whose
name starts with `spec_` or contains `Spec` instead transcribe the wording of
the specification, for comparison with the source-derived definition.
-/

set_option autoImplicit false

/-! ## String helpers (Python `in`, `str.lower`, `str.split`) -/

/-- Model of Python list/str prefix testing over character lists. -/
def charsPrefix : List Char → List Char → Bool
  | [], _ => true
  | _ :: _, [] => false
  | n :: ns, h :: hs => n == h && charsPrefix ns hs

/-- Model of Python `needle in haystack` over character lists. -/
def charsContains (needle : List Char) : List Char → Bool
  | [] => charsPrefix needle []
  | c :: hs => charsPrefix needle (c :: hs) || charsContains needle (c :: hs).tail

/-- Model of Python `needle in haystack` for strings. -/
def strContains (haystack needle : String) : Bool :=
  charsContains needle.data haystack.data

/-- Model of Python `str.startswith(needle)` / `endswith`-free prefix testing. -/
def strIsPrefixOf (needle haystack : String) : Bool :=
  charsPrefix needle.data haystack.data

/-- Model of Python `str.lower()` (ASCII case folding, as in the keyword data). -/
def strLower (s : String) : String :=
  ⟨s.data.map Char.toLower⟩

/-- Model of Python `s.split(sep)` for a one-character separator. -/
def splitOnChar (sep : Char) : List Char → List (List Char)
  | [] => [[]]
  | c :: cs =>
    if c == sep then [] :: splitOnChar sep cs
    else
      match splitOnChar sep cs with
      | [] => [[c]]
      | g :: gs => (c :: g) :: gs

/-- Number of groups produced by Python `s.split(sep)` for a one-character separator. -/
def splitCount (sep : Char) (s : String) : Nat :=
  (splitOnChar sep s.data).length

theorem char_toNat_ofNat_of_valid {n : Nat} (h : n.isValidChar) :
    (Char.ofNat n).toNat = n := by
  rw [Char.ofNat, dif_pos h]
  simp [Char.ofNatAux, Char.toNat, UInt32.toNat, BitVec.toNat_ofNatLt]

theorem char_toLower_toLower (c : Char) : c.toLower.toLower = c.toLower := by
  unfold Char.toLower
  by_cases h : c.toNat ≥ 65 ∧ c.toNat ≤ 90
  · rw [if_pos h]
    have hv : Nat.isValidChar (c.toNat + 32) := Or.inl (by omega)
    have ht : (Char.ofNat (c.toNat + 32)).toNat = c.toNat + 32 :=
      char_toNat_ofNat_of_valid hv
    rw [ht]
    rw [if_neg (by omega)]
  · rw [if_neg h, if_neg h]

theorem strLower_strLower (s : String) : strLower (strLower s) = strLower s := by
  unfold strLower
  simp [List.map_map, Function.comp_def, char_toLower_toLower]

/-! ## Agent manager and router

Source: `src/packages/cartrita-v2/py/cartrita_core/agent_manager.py`
(`CartritaAgentManager._route_task`, `_requires_computer_use`, `execute_task`,
`create_agent`, `_update_agent_performance`).
-/

def supervisor_agent_id : String := "supervisor_cartrita_v2"

/-- Keyword list of `CartritaAgentManager._requires_computer_use`. -/
def computer_keywords : List String :=
  ["screenshot", "click", "type", "scroll", "navigate", "browse",
   "open application", "close window", "desktop", "automate",
   "gui", "interface", "button", "menu", "mouse", "keyboard"]

/-- `CartritaAgentManager._requires_computer_use` (lower-cases its argument itself). -/
def requires_computer_use (task_description : String) : Bool :=
  computer_keywords.any (fun k => strContains (strLower task_description) k)

/-- Research keyword list used by `_route_task`. -/
def research_route_keywords : List String :=
  ["search", "research", "find information", "look up", "investigate",
   "gather data", "fact check", "web search", "current events"]

/-- Vision keyword list used by `_route_task`. -/
def vision_route_keywords : List String :=
  ["image", "picture", "screenshot", "visual", "analyze image",
   "ocr", "computer vision", "describe image"]

/-- Code keyword list used by `_route_task`. -/
def code_route_keywords : List String :=
  ["code", "program", "script", "function", "debug", "implement",
   "programming", "software", "algorithm", "javascript", "python"]

/-- Writing keyword list used by `_route_task`. -/
def writing_route_keywords : List String :=
  ["write", "create content", "article", "blog", "essay", "documentation",
   "report", "copy", "compose"]

/-- `CartritaAgentManager._route_task`: lower-cases the description, then scans the
keyword groups in source order, defaulting to the supervisor worker. -/
def route_task (description : String) : String :=
  if requires_computer_use (strLower description) then "computer_use_agent_v2"
  else if research_route_keywords.any (fun k => strContains (strLower description) k) then
    "research_agent_v2"
  else if vision_route_keywords.any (fun k => strContains (strLower description) k) then
    "vision_agent_v2"
  else if code_route_keywords.any (fun k => strContains (strLower description) k) then
    "code_writer_agent_v2"
  else if writing_route_keywords.any (fun k => strContains (strLower description) k) then
    "writer_agent_v2"
  else supervisor_agent_id

/-- Agent-selection step of `CartritaAgentManager.execute_task`: a truthy
`preferred_agent` that is registered wins, otherwise `_route_task` decides.
`agents` is the key list of the manager's agent registry. -/
def execute_task_assigned_agent (agents : List String) (preferred_agent : Option String)
    (description : String) : String :=
  match preferred_agent with
  | some p => if p.length != 0 && agents.contains p then p else route_task description
  | none => route_task description

/-- Default worker ids created by `_initialize_default_agents`. -/
def default_agent_ids : List String :=
  [supervisor_agent_id, "research_agent_v2", "writer_agent_v2", "vision_agent_v2",
   "computer_use_agent_v2", "code_writer_agent_v2"]

/-- Modelled from the spec (section 4.4, router decision): the ordered rule table
of keyword groups, each mapping to its worker. -/
def specRouterRules : List (List String × String) :=
  [(["screenshot", "click", "type", "scroll", "navigate", "browse",
     "open application", "close window", "desktop", "automate",
     "gui", "interface", "button", "menu", "mouse", "keyboard"],
    "computer_use_agent_v2"),
   (["search", "research", "find information", "look up", "investigate",
     "gather data", "fact check", "web search", "current events"],
    "research_agent_v2"),
   (["image", "picture", "screenshot", "visual", "analyze image",
     "ocr", "computer vision", "describe image"],
    "vision_agent_v2"),
   (["code", "program", "script", "function", "debug", "implement",
     "programming", "software", "algorithm", "javascript", "python"],
    "code_writer_agent_v2"),
   (["write", "create content", "article", "blog", "essay", "documentation",
     "report", "copy", "compose"],
    "writer_agent_v2")]

/-- Modelled from the spec: scan the rule groups in their fixed priority order;
the first group with a case-insensitive substring match selects its worker,
otherwise the supervisor worker is chosen. -/
def specRouterScan (description : String) : String :=
  match specRouterRules.find?
      (fun r => r.1.any (fun k => strContains (strLower description) k)) with
  | some r => r.2
  | none => supervisor_agent_id

/-- Modelled from the spec: if a preferred worker id is given and exists in the
pool it is chosen, otherwise the keyword scan decides. -/
def specRouter (pool : List String) (preferred : Option String) (description : String) :
    String :=
  match preferred with
  | some p => if pool.contains p then p else specRouterScan description
  | none => specRouterScan description

theorem specRouterRules_named :
    specRouterRules =
      [(computer_keywords, "computer_use_agent_v2"),
       (research_route_keywords, "research_agent_v2"),
       (vision_route_keywords, "vision_agent_v2"),
       (code_route_keywords, "code_writer_agent_v2"),
       (writing_route_keywords, "writer_agent_v2")] := rfl

theorem route_task_eq_specRouterScan (d : String) :
    route_task d = specRouterScan d := by
  unfold route_task specRouterScan
  rw [specRouterRules_named]
  unfold requires_computer_use
  rw [strLower_strLower]
  by_cases h1 : computer_keywords.any (fun k => strContains (strLower d) k)
  · simp [List.find?, h1]
  · by_cases h2 : research_route_keywords.any (fun k => strContains (strLower d) k)
    · simp [List.find?, h1, h2]
    · by_cases h3 : vision_route_keywords.any (fun k => strContains (strLower d) k)
      · simp [List.find?, h1, h2, h3]
      · by_cases h4 : code_route_keywords.any (fun k => strContains (strLower d) k)
        · simp [List.find?, h1, h2, h3, h4]
        · by_cases h5 : writing_route_keywords.any (fun k => strContains (strLower d) k)
          · simp [List.find?, h1, h2, h3, h4, h5]
          · simp [List.find?, h1, h2, h3, h4, h5]

/-- Claim C1: for every task description and worker pool, the agent chosen by
`execute_task` follows the spec's fixed rule order: a registered preferred worker
wins; otherwise computer-use keywords, then the research, vision, code and
writing groups in that order, defaulting to the supervisor worker. -/
theorem execute_task_routing_follows_spec (pool : List String) (preferred : Option String)
    (d : String) (hp : preferred ≠ some "") :
    execute_task_assigned_agent pool preferred d = specRouter pool preferred d := by
  cases preferred with
  | none => exact route_task_eq_specRouterScan d
  | some p =>
    have hp' : p ≠ "" := fun h => hp (by rw [h])
    have hlen : p.length ≠ 0 := by
      intro h0
      apply hp'
      have hd : p.data = [] := List.length_eq_zero.mp h0
      exact String.ext hd
    simp only [execute_task_assigned_agent, specRouter]
    have hb : (p.length != 0) = true := by
      simp only [bne_iff_ne, ne_eq]
      exact hlen
    rw [hb, Bool.true_and]
    cases hc : pool.contains p <;> simp [hc, route_task_eq_specRouterScan d]

/-- Witness for claim C1: the preferred-override scenario on the default pool. -/
theorem execute_task_routing_follows_spec_witness :
    (some "writer_agent_v2" : Option String) ≠ some "" ∧
      execute_task_assigned_agent default_agent_ids (some "writer_agent_v2")
        "research the CVE feed" =
      specRouter default_agent_ids (some "writer_agent_v2") "research the CVE feed" :=
  ⟨by decide,
   execute_task_routing_follows_spec default_agent_ids (some "writer_agent_v2")
     "research the CVE feed" (by decide)⟩

example : route_task "Please write a python script to sort a list" = "code_writer_agent_v2" := by
  decide

example : route_task "Take a screenshot of the current desktop" = "computer_use_agent_v2" := by
  decide

example : route_task "Summarize my week" = supervisor_agent_id := by
  decide

/-! ## Python values

Dictionaries, lists and scalars flowing through the tool registry, the schema
validator and the transport are modelled by one value type.  `datetime`
abstracts a Python `datetime` object (or any raw value pydantic parses as one)
by its timestamp; floats that occur in the claims' scope are integral and are
modelled by `int`, matching pydantic's lax numeric coercion. -/

inductive Val where
  | null
  | bool (b : Bool)
  | int (n : Int)
  | str (s : String)
  | datetime (stamp : Int)
  | list (items : List Val)
  | dict (entries : List (String × Val))

/-- Python dict assignment `d[k] = v`: replace the entry in place or append. -/
def setKey {α : Type} : List (String × α) → String → α → List (String × α)
  | [], k, v => [(k, v)]
  | (k', v') :: rest, k, v =>
    if k' == k then (k, v) :: rest else (k', v') :: setKey rest k v

/-- Crude rendering of a value, standing in for Python `str()` (only reached by
tools whose callable returns a non-dict; never examined by a claim). -/
def valDump : Val → String
  | .null => "None"
  | .bool b => if b then "True" else "False"
  | .int n => toString n
  | .str s => s
  | .datetime t => toString t
  | .list _ => "list"
  | .dict _ => "dict"

/-! ## Worker performance records

Source: `create_agent` (initial record) and `_update_agent_performance` in
`agent_manager.py`.  Float arithmetic is modelled exactly over `ℚ`. -/

structure AgentPerformanceRecord where
  tasks_completed : Nat
  success_rate : ℚ
  average_response_time : ℚ
  deriving Repr, DecidableEq

/-- Performance record installed by `create_agent`. -/
def initial_agent_performance : AgentPerformanceRecord :=
  { tasks_completed := 0, success_rate := 1, average_response_time := 0 }

/-- `CartritaAgentManager._update_agent_performance` on one worker's record:
increment the task counter and fold the outcome into the EMAs with α = 0.1
(the response-time EMA is skipped when the observed time is not positive). -/
def update_agent_performance (perf : AgentPerformanceRecord) (success : Bool)
    (execution_time_ms : ℚ) : AgentPerformanceRecord :=
  { tasks_completed := perf.tasks_completed + 1
    success_rate :=
      (1 / 10) * (if success then 1 else 0) + (1 - 1 / 10) * perf.success_rate
    average_response_time :=
      if 0 < execution_time_ms then
        (1 / 10) * execution_time_ms + (1 - 1 / 10) * perf.average_response_time
      else perf.average_response_time }

theorem update_agent_performance_success_rate_unit (perf : AgentPerformanceRecord)
    (success : Bool) (t : ℚ) (h0 : 0 ≤ perf.success_rate) (h1 : perf.success_rate ≤ 1) :
    0 ≤ (update_agent_performance perf success t).success_rate ∧
      (update_agent_performance perf success t).success_rate ≤ 1 := by
  cases success <;> simp [update_agent_performance] <;> constructor <;> nlinarith

/-- Claim C9: after any finite sequence of performance updates starting from the
initial record, the worker's success-rate EMA stays inside the interval 0 to 1. -/
theorem success_rate_stays_in_unit_interval (updates : List (Bool × ℚ)) :
    0 ≤ (updates.foldl (fun p u => update_agent_performance p u.1 u.2)
          initial_agent_performance).success_rate ∧
      (updates.foldl (fun p u => update_agent_performance p u.1 u.2)
          initial_agent_performance).success_rate ≤ 1 := by
  have general : ∀ (us : List (Bool × ℚ)) (p : AgentPerformanceRecord),
      0 ≤ p.success_rate → p.success_rate ≤ 1 →
      0 ≤ (us.foldl (fun p u => update_agent_performance p u.1 u.2) p).success_rate ∧
        (us.foldl (fun p u => update_agent_performance p u.1 u.2) p).success_rate ≤ 1 := by
    intro us
    induction us with
    | nil => intro p h0 h1; exact ⟨h0, h1⟩
    | cons u rest ih =>
      intro p h0 h1
      have step := update_agent_performance_success_rate_unit p u.1 u.2 h0 h1
      exact ih _ step.1 step.2
  exact general updates initial_agent_performance (by norm_num [initial_agent_performance])
    (by norm_num [initial_agent_performance])

/-! ## Tool registry

Source: `src/packages/cartrita-v2/py/cartrita_core/tools.py`
(`CartritaToolRegistry.execute_tool`, `_check_permission`, `_file_read`,
`_file_write`).  The registry's callables are abstracted by an oracle passed to
`execute_tool`; `tools` records the key set of `self.tools`, and tool
descriptions, parameter schemas and usage counters not examined by any claim
are omitted.  JSON-string parameter decoding is orthogonal to the claims;
parameters arrive already decoded. -/

inductive ToolPermissionLevel where
  | publicLevel
  | restricted
  | supervised
  | admin
  deriving Repr, DecidableEq

structure ExecutionLogEntry where
  tool_name : String
  agent_id : String
  success : Bool
  execution_time : Option Int
  error : Option String
  deriving Repr, DecidableEq

structure ToolRegistryState where
  tools : List String
  tool_permissions : List (String × ToolPermissionLevel)
  agent_permissions : List (String × List String)
  execution_history : List ExecutionLogEntry

/-- `CartritaToolRegistry._check_permission`: a missing tool defaults to the
admin level; public tools pass for everyone; otherwise the tool must be in the
agent's grant list. -/
def check_permission (st : ToolRegistryState) (agent_id tool_name : String) : Bool :=
  let permission_level :=
    (st.tool_permissions.lookup tool_name).getD ToolPermissionLevel.admin
  if permission_level = ToolPermissionLevel.publicLevel then true
  else ((st.agent_permissions.lookup agent_id).getD []).contains tool_name

/-- Outcome of invoking a tool callable: a returned value or a raised exception. -/
inductive ToolRunOutcome where
  | ok (result : Val)
  | exn (message : String)

/-- Python `{**result}` coercion in `execute_tool`: non-dict returns are wrapped. -/
def ensure_mapping (v : Val) : Val :=
  match v with
  | .dict entries => .dict entries
  | other => .dict [("output", Val.str (valDump other))]

/-- `CartritaToolRegistry.execute_tool`.  `impl` is the registered callable
(indexed by tool name), `execution_time` the measured wall-clock duration.
Returns the result mapping, the new registry state, and the list of callable
invocations actually performed. -/
def execute_tool (st : ToolRegistryState) (impl : String → Val → ToolRunOutcome)
    (execution_time : Int) (tool_name : String) (parameters : Val) (agent_id : String) :
    Val × ToolRegistryState × List (String × Val) :=
  if ¬ st.tools.contains tool_name then
    (Val.dict [("success", Val.bool false),
               ("error", Val.str ("Tool " ++ tool_name ++ " not found"))], st, [])
  else if ¬ check_permission st agent_id tool_name then
    (Val.dict [("success", Val.bool false),
               ("error", Val.str ("Agent " ++ agent_id ++ " lacks permission for tool "
                  ++ tool_name))], st, [])
  else
    match impl tool_name parameters with
    | .ok result =>
      let entry : ExecutionLogEntry :=
        { tool_name := tool_name, agent_id := agent_id, success := true,
          execution_time := some execution_time, error := none }
      let wrapped :=
        match ensure_mapping result with
        | .dict entries =>
          Val.dict (setKey (setKey entries "success" (Val.bool true))
            "execution_time" (Val.int execution_time))
        | other => other
      (wrapped, { st with execution_history := st.execution_history ++ [entry] },
       [(tool_name, parameters)])
    | .exn message =>
      let entry : ExecutionLogEntry :=
        { tool_name := tool_name, agent_id := agent_id, success := false,
          execution_time := none, error := some message }
      (Val.dict [("success", Val.bool false), ("error", Val.str message)],
       { st with execution_history := st.execution_history ++ [entry] },
       [(tool_name, parameters)])

/-- Registry key set and permission levels installed by `_register_core_tools`. -/
def core_registry_state : ToolRegistryState :=
  { tools := ["web_search", "file_read", "file_write", "screenshot", "system_info",
              "execute_code"]
    tool_permissions :=
      [("web_search", ToolPermissionLevel.publicLevel),
       ("file_read", ToolPermissionLevel.restricted),
       ("file_write", ToolPermissionLevel.restricted),
       ("screenshot", ToolPermissionLevel.restricted),
       ("system_info", ToolPermissionLevel.publicLevel),
       ("execute_code", ToolPermissionLevel.supervised)]
    agent_permissions := []
    execution_history := [] }

/-- Claim C3: the registered callable is invoked only when the tool is public or
currently granted to the agent, and a failing permission check returns the
`lacks permission` error mapping, performs no invocation, and leaves the
registry state (in particular the execution log) unchanged. -/
theorem execute_tool_enforces_permissions (st : ToolRegistryState)
    (impl : String → Val → ToolRunOutcome) (t : Int) (tool_name : String)
    (parameters : Val) (agent_id : String) :
    ((execute_tool st impl t tool_name parameters agent_id).2.2 ≠ [] →
      (st.tool_permissions.lookup tool_name).getD ToolPermissionLevel.admin
          = ToolPermissionLevel.publicLevel ∨
        tool_name ∈ (st.agent_permissions.lookup agent_id).getD []) ∧
    (st.tools.contains tool_name = true →
      check_permission st agent_id tool_name = false →
      execute_tool st impl t tool_name parameters agent_id =
        (Val.dict [("success", Val.bool false),
          ("error", Val.str ("Agent " ++ agent_id ++ " lacks permission for tool "
            ++ tool_name))], st, [])) := by
  constructor
  · intro hcalls
    by_cases hreg : st.tools.contains tool_name
    · by_cases hperm : check_permission st agent_id tool_name
      · unfold check_permission at hperm
        by_cases hpub : (st.tool_permissions.lookup tool_name).getD
            ToolPermissionLevel.admin = ToolPermissionLevel.publicLevel
        · exact Or.inl hpub
        · right
          rw [if_neg hpub] at hperm
          simpa [List.contains, List.elem_iff] using hperm
      · exfalso
        apply hcalls
        unfold execute_tool
        rw [if_neg (fun hh => hh hreg), if_pos hperm]
    · exfalso
      apply hcalls
      unfold execute_tool
      rw [if_pos hreg]
  · intro hreg hperm
    unfold execute_tool
    rw [if_neg (fun hh => hh hreg), if_pos (by simp [hperm])]

/-- Witness for claim C3: an agent with no grants invoking the restricted
`file_read` tool on the core registry is denied with the spec's error string. -/
theorem execute_tool_enforces_permissions_witness :
    execute_tool core_registry_state (fun _ _ => ToolRunOutcome.exn "not reached") 0
        "file_read" (Val.dict [("file_path", Val.str "/tmp/x")]) "A" =
      (Val.dict [("success", Val.bool false),
        ("error", Val.str "Agent A lacks permission for tool file_read")],
       core_registry_state, []) :=
  (execute_tool_enforces_permissions core_registry_state
      (fun _ _ => ToolRunOutcome.exn "not reached") 0 "file_read"
      (Val.dict [("file_path", Val.str "/tmp/x")]) "A").2 (by decide) (by decide)

/-! ## File-system tools

Source: `CartritaToolRegistry._file_read` and `_file_write` in `tools.py`.
Paths passed to the model are taken as already resolved (`Path.resolve`), and
the file system is explicit: a file table and a directory set. -/

structure FileSystem where
  files : List (String × String)
  dirs : List String
  deriving Repr, DecidableEq

/-- The `safe_dirs` list of `_file_read` / `_file_write`. -/
def safe_dirs : List String := ["/tmp", "/home", "/var/tmp"]

/-- The source's security check: `str(path.resolve()).startswith(safe_dir)`
for some entry of `safe_dirs` (a plain string-prefix test). -/
def passes_safe_directory_check (resolved_path : String) : Bool :=
  safe_dirs.any (fun d => strIsPrefixOf d resolved_path)

/-- Modelled from the spec: the resolved target path lies under one of the
directories `/tmp`, `/home`, `/var/tmp` (it is the directory itself or a
descendant of it). -/
def spec_path_under_safe_dirs (resolved_path : String) : Bool :=
  safe_dirs.any (fun d => resolved_path == d || strIsPrefixOf (d ++ "/") resolved_path)

/-- Proper ancestor directories of a path, for `path.parent.mkdir(parents=True)`. -/
def parent_dirs (p : String) : List String :=
  let comps := ((splitOnChar '/' p.data).filter (fun c => c ≠ [])).map String.mk
  (List.range comps.length).filterMap (fun i =>
    if i = 0 then none
    else some ("/" ++ String.intercalate "/" (comps.take i)))

/-- `CartritaToolRegistry._file_read`: existence and directory checks come first,
then the security check, then the read. -/
def file_read (fs : FileSystem) (file_path : String) : Val :=
  if fs.files.lookup file_path = none ∧ ¬ fs.dirs.contains file_path then
    Val.dict [("error", Val.str ("File not found: " ++ file_path))]
  else if fs.dirs.contains file_path then
    Val.dict [("error", Val.str ("Path is a directory: " ++ file_path))]
  else if ¬ passes_safe_directory_check file_path then
    Val.dict [("error", Val.str "Access denied: unsafe directory")]
  else
    let content := (fs.files.lookup file_path).getD ""
    Val.dict [("file_path", Val.str file_path), ("content", Val.str content),
              ("size_bytes", Val.int content.utf8ByteSize)]

/-- `CartritaToolRegistry._file_write`: security check, then parent-directory
creation, then the write (overwrite or append by `mode`). -/
def file_write (fs : FileSystem) (file_path content mode : String) : Val × FileSystem :=
  if ¬ passes_safe_directory_check file_path then
    (Val.dict [("error", Val.str "Access denied: unsafe directory")], fs)
  else
    let old := (fs.files.lookup file_path).getD ""
    let written := if mode == "a" then old ++ content else content
    (Val.dict [("file_path", Val.str file_path),
               ("bytes_written", Val.int content.utf8ByteSize),
               ("mode", Val.str mode)],
     { files := setKey fs.files file_path written
       dirs := fs.dirs ++ (parent_dirs file_path).filter (fun d => ¬ fs.dirs.contains d) })

/-- Claim C7 is refuted by the code: the safety test is a string-prefix check,
so `/tmpfoo/secret` — which does not lie under `/tmp`, `/home` or `/var/tmp` —
passes it, and `file_write` performs the write instead of denying access.  The
spec's intended containment test (`spec_path_under_safe_dirs`) rejects the path. -/
theorem file_write_escapes_safe_directories :
    spec_path_under_safe_dirs "/tmpfoo/secret" = false ∧
      passes_safe_directory_check "/tmpfoo/secret" = true ∧
      file_write { files := [], dirs := [] } "/tmpfoo/secret" "data" "w" =
        (Val.dict [("file_path", Val.str "/tmpfoo/secret"),
                   ("bytes_written", Val.int 4),
                   ("mode", Val.str "w")],
         { files := [("/tmpfoo/secret", "data")], dirs := ["/tmpfoo"] }) := by
  refine ⟨by decide, by decide, ?_⟩
  rfl

/-! ## MCP schema

Source: `src/py/mcp_core/schema.py` (enums, `MessageTypes`, `TaskTypes`,
`MCPMessage` and nested models, `MCPValidator`). -/

/-- Model of Python `str.upper()` (ASCII). -/
def strUpper (s : String) : String :=
  ⟨s.data.map Char.toUpper⟩

/-- Python `task_type.upper().replace(".", "_")` as used by `is_valid_task_type`. -/
def pyUpperUnderscore (s : String) : String :=
  ⟨(strUpper s).data.map (fun c => if c == '.' then '_' else c)⟩

/-- Values of the closed `MessageTypes` constant class. -/
def message_types : List String :=
  ["TASK_REQUEST", "TASK_RESPONSE", "TASK_PROGRESS", "TASK_CANCEL", "STREAM_START",
   "STREAM_DATA", "STREAM_END", "HEARTBEAT", "HEALTH_CHECK", "AGENT_REGISTER",
   "AGENT_DEREGISTER", "SYSTEM_COMMAND", "CONFIG_UPDATE", "EMERGENCY_STOP"]

/-- Members of the `TaskStatus` enum. -/
def task_statuses : List String :=
  ["PENDING", "RUNNING", "COMPLETED", "FAILED", "CANCELLED", "TIMEOUT"]

/-- Python attribute access `getattr(TaskStatus, name)`: `None` models the
`AttributeError` raised for a missing member. -/
def task_status_attr (name : String) : Option String :=
  if task_statuses.contains name then some name else none

/-- Members of the `DeliveryGuarantee` enum. -/
def delivery_guarantees : List String :=
  ["AT_MOST_ONCE", "AT_LEAST_ONCE", "EXACTLY_ONCE"]

/-- The `TaskTypes` constant class: attribute names paired with their values. -/
def task_type_attrs : List (String × String) :=
  [("HF_TEXT_GENERATION", "huggingface.text.generation"),
   ("HF_TEXT_CLASSIFICATION", "huggingface.text.classification"),
   ("HF_TEXT_SUMMARIZATION", "huggingface.text.summarization"),
   ("HF_TEXT_TRANSLATION", "huggingface.text.translation"),
   ("HF_TEXT_QA", "huggingface.text.question_answering"),
   ("HF_VISION_CLASSIFICATION", "huggingface.vision.classification"),
   ("HF_VISION_DETECTION", "huggingface.vision.object_detection"),
   ("HF_VISION_SEGMENTATION", "huggingface.vision.segmentation"),
   ("HF_AUDIO_STT", "huggingface.audio.speech_recognition"),
   ("HF_AUDIO_TTS", "huggingface.audio.text_to_speech"),
   ("HF_MULTIMODAL_VQA", "huggingface.multimodal.visual_qa"),
   ("LC_AGENT_EXECUTE", "langchain.agent.execute"),
   ("LC_CHAT_EXECUTE", "langchain.chat.execute"),
   ("LC_REACT_EXECUTE", "langchain.react.execute"),
   ("LC_GENERATIVE_EXECUTE", "langchain.generative.execute"),
   ("LC_PLAN_EXECUTE", "langchain.plan_execute"),
   ("LC_BABYAGI_EXECUTE", "langchain.babyagi.execute"),
   ("DG_AUDIO_TRANSCRIBE_LIVE", "deepgram.audio.transcribe.live"),
   ("DG_AUDIO_TRANSCRIBE_FILE", "deepgram.audio.transcribe.file"),
   ("DG_AUDIO_AGENT_LIVE", "deepgram.audio.agent.live"),
   ("SYS_HEALTH_CHECK", "system.health_check"),
   ("SYS_TELEMETRY_QUERY", "system.telemetry_query"),
   ("SYS_CONFIG_UPDATE", "system.config_update"),
   ("LIFEOS_CALENDAR_SYNC", "lifeos.calendar.sync"),
   ("LIFEOS_EMAIL_PROCESS", "lifeos.email.process"),
   ("LIFEOS_CONTACT_SEARCH", "lifeos.contact.search"),
   ("SEC_AUDIT", "security.audit"),
   ("SEC_VULN_SCAN", "security.vulnerability_scan"),
   ("SEC_COMPLIANCE_CHECK", "security.compliance_check"),
   ("MEM_KG_UPSERT", "memory.knowledge_graph.upsert"),
   ("MEM_KG_QUERY", "memory.knowledge_graph.query"),
   ("MEM_CONTEXT_RETRIEVE", "memory.context.retrieve"),
   ("MEM_CONTEXT_STORE", "memory.context.store"),
   ("RESEARCH_WEB_SEARCH", "research.web.search"),
   ("RESEARCH_WEB_SCRAPE", "research.web.scrape"),
   ("WRITER_COMPOSE", "writer.compose"),
   ("CODEWRITER_GENERATE", "codewriter.generate"),
   ("ANALYTICS_RUN_QUERY", "analytics.run_query"),
   ("SCHEDULER_SCHEDULE_EVENT", "scheduler.schedule_event"),
   ("MULTIMODAL_FUSE", "multimodal.fuse"),
   ("TRANSLATION_DETECT_TRANSLATE", "translation.detect_translate"),
   ("NOTIFICATION_SEND", "notification.send"),
   ("ARTIST_GENERATE_IMAGE", "artist.generate_image"),
   ("DESIGN_CREATE_MOCKUP", "design.create_mockup"),
   ("COMEDIAN_GENERATE_JOKE", "comedian.generate_joke")]

/-- The enumerated set of supported task-type strings (the class's values). -/
def supported_task_types : List String := task_type_attrs.map Prod.snd

/-- `MCPValidator.is_valid_task_type`:
`hasattr(TaskTypes, task_type.upper().replace(".", "_"))` — it consults the
class's attribute names, not its values. -/
def is_valid_task_type (task_type : String) : Bool :=
  task_type_attrs.any (fun a => a.1 == pyUpperUnderscore task_type)

/-- Claim C6 is refuted by the code: `is_valid_task_type` tests attribute names,
so the supported value `huggingface.text.generation` (attribute
`HF_TEXT_GENERATION`) is rejected, while `hf.text.generation` — not in the
supported set — is accepted. -/
theorem is_valid_task_type_disagrees_with_supported_set :
    ("huggingface.text.generation" ∈ supported_task_types ∧
      is_valid_task_type "huggingface.text.generation" = false) ∧
    ("hf.text.generation" ∉ supported_task_types ∧
      is_valid_task_type "hf.text.generation" = true) := by
  refine ⟨⟨?_, ?_⟩, ?_, ?_⟩ <;> decide

/-- Python dict lookup `d.get(k)`. -/
def vLookup (entries : List (String × Val)) (k : String) : Option Val :=
  (entries.find? (fun kv => kv.1 == k)).map Prod.snd

structure DeliveryOptions where
  guarantee : String
  retry_count : Int
  retry_delay_ms : Int
  require_ack : Bool
  priority : Int
  deriving Repr, DecidableEq

/-- Field names of the `DeliveryOptions` model (`extra="forbid"`). -/
def delivery_options_fields : List String :=
  ["guarantee", "retry_count", "retry_delay_ms", "require_ack", "priority"]

/-- Pydantic validation of the `DeliveryOptions` model: closed field set, the
guarantee drawn from the `DeliveryGuarantee` enum, `retry_count` and `priority`
in `[0, 10]`, `retry_delay_ms ≥ 0`. -/
def validate_delivery (v : Val) : Except String DeliveryOptions :=
  match v with
  | Val.dict entries =>
    if entries.all (fun kv => delivery_options_fields.contains kv.1) then
      match vLookup entries "guarantee" with
      | some (Val.str g) =>
        if delivery_guarantees.contains g then
          match vLookup entries "retry_count" with
          | some (Val.int rc) =>
            if 0 ≤ rc ∧ rc ≤ 10 then
              match vLookup entries "retry_delay_ms" with
              | some (Val.int rd) =>
                if 0 ≤ rd then
                  match vLookup entries "require_ack" with
                  | some (Val.bool ra) =>
                    match vLookup entries "priority" with
                    | some (Val.int pr) =>
                      if 0 ≤ pr ∧ pr ≤ 10 then
                        .ok { guarantee := g, retry_count := rc, retry_delay_ms := rd,
                              require_ack := ra, priority := pr }
                      else .error "priority: out of range"
                    | _ => .error "priority: invalid or missing"
                  | _ => .error "require_ack: invalid or missing"
                else .error "retry_delay_ms: out of range"
              | _ => .error "retry_delay_ms: invalid or missing"
            else .error "retry_count: out of range"
          | _ => .error "retry_count: invalid or missing"
        else .error "guarantee: not a member of DeliveryGuarantee"
      | _ => .error "guarantee: invalid or missing"
    else .error "delivery: extra fields forbidden"
  | _ => .error "delivery: not a mapping"

theorem validate_delivery_sound (v : Val) (d : DeliveryOptions)
    (h : validate_delivery v = .ok d) :
    delivery_guarantees.contains d.guarantee = true ∧
      0 ≤ d.retry_count ∧ d.retry_count ≤ 10 ∧ 0 ≤ d.retry_delay_ms ∧
      0 ≤ d.priority ∧ d.priority ≤ 10 := by
  unfold validate_delivery at h
  repeat split at h
  all_goals try exact Except.noConfusion h
  all_goals injection h with h
  all_goals subst h
  all_goals simp_all

structure CostBudget where
  max_usd : Int
  max_tokens : Int
  used_usd : Int
  used_tokens : Int
  model_costs : List (String × Int)
  deriving Repr, DecidableEq

structure ResourceLimits where
  max_cpu_percent : Int
  max_memory_mb : Int
  max_concurrent_requests : Int
  max_processing_time_ms : Int
  deriving Repr, DecidableEq

structure MCPContext where
  trace_id : String
  span_id : String
  parent_span_id : Option String
  baggage : List (String × String)
  user_id : Option String
  session_id : Option String
  workspace_id : Option String
  request_id : String
  timeout_ms : Int
  metadata : List (String × String)
  budget : Option CostBudget
  limits : Option ResourceLimits
  deriving Repr, DecidableEq

def cost_budget_fields : List String :=
  ["max_usd", "max_tokens", "used_usd", "used_tokens", "model_costs"]

def resource_limits_fields : List String :=
  ["max_cpu_percent", "max_memory_mb", "max_concurrent_requests", "max_processing_time_ms"]

def mcp_context_fields : List String :=
  ["trace_id", "span_id", "parent_span_id", "baggage", "user_id", "session_id",
   "workspace_id", "request_id", "timeout_ms", "metadata", "budget", "limits"]

/-- Pydantic parsing of an optional string field (absent or `None` are fine). -/
def parse_opt_str : Option Val → Except String (Option String)
  | none => .ok none
  | some Val.null => .ok none
  | some (Val.str s) => .ok (some s)
  | some _ => .error "expected a string or null"

/-- Pydantic parsing of a `Dict[str, str]` field with `default_factory=dict`. -/
def parse_str_entries : List (String × Val) → Except String (List (String × String))
  | [] => .ok []
  | (k, Val.str s) :: rest =>
    match parse_str_entries rest with
    | .ok r => .ok ((k, s) :: r)
    | .error e => .error e
  | _ => .error "expected string values"

def parse_str_map : Option Val → Except String (List (String × String))
  | none => .ok []
  | some (Val.dict kvs) => parse_str_entries kvs
  | some _ => .error "expected a mapping"

/-- Pydantic parsing of a `List[str]` field with `default_factory=list`. -/
def parse_str_items : List Val → Except String (List String)
  | [] => .ok []
  | Val.str s :: rest =>
    match parse_str_items rest with
    | .ok r => .ok (s :: r)
    | .error e => .error e
  | _ => .error "expected string items"

def parse_str_list : Option Val → Except String (List String)
  | none => .ok []
  | some (Val.list items) => parse_str_items items
  | some _ => .error "expected a list"

/-- Per-model cost map of `CostBudget` (`Dict[str, float]`; integral floats). -/
def parse_int_entries : List (String × Val) → Except String (List (String × Int))
  | [] => .ok []
  | (k, Val.int n) :: rest =>
    match parse_int_entries rest with
    | .ok r => .ok ((k, n) :: r)
    | .error e => .error e
  | _ => .error "expected numeric values"

/-- Pydantic validation of `CostBudget` (all quantities nonnegative). -/
def validate_cost_budget (v : Val) : Except String CostBudget :=
  match v with
  | Val.dict entries =>
    if entries.all (fun kv => cost_budget_fields.contains kv.1) then
      match vLookup entries "max_usd" with
      | some (Val.int mu) =>
        if 0 ≤ mu then
          match vLookup entries "max_tokens" with
          | some (Val.int mt) =>
            if 0 ≤ mt then
              match vLookup entries "used_usd" with
              | some (Val.int uu) =>
                if 0 ≤ uu then
                  match vLookup entries "used_tokens" with
                  | some (Val.int ut) =>
                    if 0 ≤ ut then
                      match vLookup entries "model_costs" with
                      | none => .ok { max_usd := mu, max_tokens := mt, used_usd := uu,
                                      used_tokens := ut, model_costs := [] }
                      | some (Val.dict mc) =>
                        match parse_int_entries mc with
                        | .ok mcp => .ok { max_usd := mu, max_tokens := mt, used_usd := uu,
                                           used_tokens := ut, model_costs := mcp }
                        | .error e => .error e
                      | some _ => .error "model_costs: expected a mapping"
                    else .error "used_tokens: out of range"
                  | _ => .error "used_tokens: invalid or missing"
                else .error "used_usd: out of range"
              | _ => .error "used_usd: invalid or missing"
            else .error "max_tokens: out of range"
          | _ => .error "max_tokens: invalid or missing"
        else .error "max_usd: out of range"
      | _ => .error "max_usd: invalid or missing"
    else .error "budget: extra fields forbidden"
  | _ => .error "budget: not a mapping"

/-- Pydantic validation of `ResourceLimits`. -/
def validate_resource_limits (v : Val) : Except String ResourceLimits :=
  match v with
  | Val.dict entries =>
    if entries.all (fun kv => resource_limits_fields.contains kv.1) then
      match vLookup entries "max_cpu_percent" with
      | some (Val.int cp) =>
        if 0 ≤ cp ∧ cp ≤ 100 then
          match vLookup entries "max_memory_mb" with
          | some (Val.int mm) =>
            if 0 ≤ mm then
              match vLookup entries "max_concurrent_requests" with
              | some (Val.int mr) =>
                if 1 ≤ mr then
                  match vLookup entries "max_processing_time_ms" with
                  | some (Val.int mp) =>
                    if 0 ≤ mp then
                      .ok { max_cpu_percent := cp, max_memory_mb := mm,
                            max_concurrent_requests := mr, max_processing_time_ms := mp }
                    else .error "max_processing_time_ms: out of range"
                  | _ => .error "max_processing_time_ms: invalid or missing"
                else .error "max_concurrent_requests: out of range"
              | _ => .error "max_concurrent_requests: invalid or missing"
            else .error "max_memory_mb: out of range"
          | _ => .error "max_memory_mb: invalid or missing"
        else .error "max_cpu_percent: out of range"
      | _ => .error "max_cpu_percent: invalid or missing"
    else .error "limits: extra fields forbidden"
  | _ => .error "limits: not a mapping"

/-- Optional `CostBudget` submodel field. -/
def parse_opt_budget : Option Val → Except String (Option CostBudget)
  | none => .ok none
  | some Val.null => .ok none
  | some (Val.dict bv) =>
    match validate_cost_budget (Val.dict bv) with
    | .ok b => .ok (some b)
    | .error e => .error e
  | some _ => .error "budget: invalid"

/-- Optional `ResourceLimits` submodel field. -/
def parse_opt_limits : Option Val → Except String (Option ResourceLimits)
  | none => .ok none
  | some Val.null => .ok none
  | some (Val.dict lv) =>
    match validate_resource_limits (Val.dict lv) with
    | .ok l => .ok (some l)
    | .error e => .error e
  | some _ => .error "limits: invalid"

/-- Pydantic validation of `MCPContext`: required tracing and request ids, a
nonnegative timeout, optional baggage/metadata maps and budget/limits models. -/
def validate_context (v : Val) : Except String MCPContext :=
  match v with
  | Val.dict entries =>
    if entries.all (fun kv => mcp_context_fields.contains kv.1) then
      match vLookup entries "trace_id" with
      | some (Val.str tid) =>
        match vLookup entries "span_id" with
        | some (Val.str sid) =>
          match parse_opt_str (vLookup entries "parent_span_id") with
          | .error e => .error e
          | .ok psid =>
            match parse_str_map (vLookup entries "baggage") with
            | .error e => .error e
            | .ok bag =>
              match parse_opt_str (vLookup entries "user_id") with
              | .error e => .error e
              | .ok uid =>
                match parse_opt_str (vLookup entries "session_id") with
                | .error e => .error e
                | .ok sess =>
                  match parse_opt_str (vLookup entries "workspace_id") with
                  | .error e => .error e
                  | .ok wid =>
                    match vLookup entries "request_id" with
                    | some (Val.str rid) =>
                      match vLookup entries "timeout_ms" with
                      | some (Val.int tms) =>
                        if 0 ≤ tms then
                          match parse_str_map (vLookup entries "metadata") with
                          | .error e => .error e
                          | .ok meta =>
                            match parse_opt_budget (vLookup entries "budget") with
                            | .error e => .error e
                            | .ok budget =>
                              match parse_opt_limits (vLookup entries "limits") with
                              | .error e => .error e
                              | .ok lims =>
                                .ok { trace_id := tid, span_id := sid,
                                      parent_span_id := psid, baggage := bag,
                                      user_id := uid, session_id := sess,
                                      workspace_id := wid, request_id := rid,
                                      timeout_ms := tms, metadata := meta,
                                      budget := budget, limits := lims }
                        else .error "timeout_ms: out of range"
                      | _ => .error "timeout_ms: invalid or missing"
                    | _ => .error "request_id: invalid or missing"
        | _ => .error "span_id: invalid or missing"
      | _ => .error "trace_id: invalid or missing"
    else .error "context: extra fields forbidden"
  | _ => .error "context: not a mapping"

theorem validate_context_sound (v : Val) (c : MCPContext)
    (h : validate_context v = .ok c) : 0 ≤ c.timeout_ms := by
  unfold validate_context at h
  repeat' (split at h)
  all_goals try exact Except.noConfusion h
  all_goals injection h with h
  all_goals subst h
  all_goals simp_all

structure MCPMessage where
  id : String
  correlation_id : Option String
  trace_id : String
  span_id : String
  sender : String
  recipient : String
  message_type : String
  payload : Val
  tags : List String
  context : MCPContext
  delivery : DeliveryOptions
  created_at : Int
  expires_at : Option Int
  security_token : Option String
  permissions : List String

def mcp_message_fields : List String :=
  ["id", "correlation_id", "trace_id", "span_id", "sender", "recipient",
   "message_type", "payload", "tags", "context", "delivery", "created_at",
   "expires_at", "security_token", "permissions"]

/-- Optional datetime field (`expires_at`). -/
def parse_opt_datetime : Option Val → Except String (Option Int)
  | none => .ok none
  | some Val.null => .ok none
  | some (Val.datetime t) => .ok (some t)
  | some _ => .error "expected a datetime or null"

/-- `MCPValidator.validate_message` = `MCPMessage.model_validate(raw)`: closed
field set (`extra="forbid"`), required string fields, the model's only id check
(`len(v.split('-')) != 5` raises `Invalid UUID format`), any string as
`message_type` (the field is a plain `str`), nested context and delivery
models, and a parseable `created_at` datetime. -/
def validate_message (raw : Val) : Except String MCPMessage :=
  match raw with
  | Val.dict entries =>
    if entries.all (fun kv => mcp_message_fields.contains kv.1) then
      match vLookup entries "id" with
      | some (Val.str idv) =>
        if splitCount '-' idv = 5 then
          match parse_opt_str (vLookup entries "correlation_id") with
          | .error e => .error e
          | .ok corr =>
            match vLookup entries "trace_id" with
            | some (Val.str tid) =>
              match vLookup entries "span_id" with
              | some (Val.str sid) =>
                match vLookup entries "sender" with
                | some (Val.str snd) =>
                  match vLookup entries "recipient" with
                  | some (Val.str rcp) =>
                    match vLookup entries "message_type" with
                    | some (Val.str mt) =>
                      match vLookup entries "payload" with
                      | none => .error "payload: missing required field"
                      | some payload =>
                        match parse_str_list (vLookup entries "tags") with
                        | .error e => .error e
                        | .ok tags =>
                          match vLookup entries "context" with
                          | none => .error "context: missing required field"
                          | some cv =>
                            match validate_context cv with
                            | .error e => .error e
                            | .ok ctx =>
                              match vLookup entries "delivery" with
                              | none => .error "delivery: missing required field"
                              | some dv =>
                                match validate_delivery dv with
                                | .error e => .error e
                                | .ok delivery =>
                                  match vLookup entries "created_at" with
                                  | some (Val.datetime ca) =>
                                    match parse_opt_datetime
                                        (vLookup entries "expires_at") with
                                    | .error e => .error e
                                    | .ok expires =>
                                      match parse_opt_str
                                          (vLookup entries "security_token") with
                                      | .error e => .error e
                                      | .ok tok =>
                                        match parse_str_list
                                            (vLookup entries "permissions") with
                                        | .error e => .error e
                                        | .ok perms =>
                                          .ok { id := idv, correlation_id := corr,
                                                trace_id := tid, span_id := sid,
                                                sender := snd, recipient := rcp,
                                                message_type := mt, payload := payload,
                                                tags := tags, context := ctx,
                                                delivery := delivery, created_at := ca,
                                                expires_at := expires,
                                                security_token := tok,
                                                permissions := perms }
                                  | _ => .error "created_at: invalid or missing"
                    | _ => .error "message_type: invalid or missing"
                  | _ => .error "recipient: invalid or missing"
                | _ => .error "sender: invalid or missing"
              | _ => .error "span_id: invalid or missing"
            | _ => .error "trace_id: invalid or missing"
        else .error "Invalid UUID format"
      | _ => .error "id: invalid or missing"
    else .error "message: extra fields forbidden"
  | _ => .error "message: not a mapping"

def except_is_ok {ε α : Type} : Except ε α → Bool
  | .ok _ => true
  | .error _ => false

/-- Modelled from the spec: a well-formed UUID has the dashed 8-4-4-4-12
hexadecimal shape. -/
def spec_is_uuid_format (s : String) : Bool :=
  match splitOnChar '-' s.data with
  | [a, b, c, d, e] =>
    a.length == 8 && b.length == 4 && c.length == 4 && d.length == 4 &&
      e.length == 12 &&
      (a ++ b ++ c ++ d ++ e).all (fun ch =>
        ch.isDigit || (97 ≤ ch.toNat && ch.toNat ≤ 102) ||
          (65 ≤ ch.toNat && ch.toNat ≤ 70))
  | _ => false

/-- A raw message dict whose id is not a UUID (but has five dash-separated
groups) and whose message type is the given string. -/
def sample_raw_message (message_type : String) : Val :=
  Val.dict
    [("id", Val.str "zz-zz-zz-zz-zz"),
     ("trace_id", Val.str "trace-1"),
     ("span_id", Val.str "span-1"),
     ("sender", Val.str "orchestrator"),
     ("recipient", Val.str "python-bridge"),
     ("message_type", Val.str message_type),
     ("payload", Val.null),
     ("context", Val.dict
       [("trace_id", Val.str "trace-1"), ("span_id", Val.str "span-1"),
        ("request_id", Val.str "req-1"), ("timeout_ms", Val.int 30000)]),
     ("delivery", Val.dict
       [("guarantee", Val.str "AT_LEAST_ONCE"), ("retry_count", Val.int 3),
        ("retry_delay_ms", Val.int 1000), ("require_ack", Val.bool true),
        ("priority", Val.int 5)]),
     ("created_at", Val.datetime 1700000000)]

/-- The record `validate_message` produces for `sample_raw_message`. -/
def sample_message (message_type : String) : MCPMessage :=
  { id := "zz-zz-zz-zz-zz", correlation_id := none, trace_id := "trace-1",
    span_id := "span-1", sender := "orchestrator", recipient := "python-bridge",
    message_type := message_type, payload := Val.null, tags := [],
    context := { trace_id := "trace-1", span_id := "span-1", parent_span_id := none,
                 baggage := [], user_id := none, session_id := none,
                 workspace_id := none, request_id := "req-1", timeout_ms := 30000,
                 metadata := [], budget := none, limits := none },
    delivery := { guarantee := "AT_LEAST_ONCE", retry_count := 3,
                  retry_delay_ms := 1000, require_ack := true, priority := 5 },
    created_at := 1700000000, expires_at := none, security_token := none,
    permissions := [] }

/-- Counterexample to claim C5: `validate_message` accepts a message whose type
`TOTALLY_BOGUS` is not in the closed message-type enum and whose id
`zz-zz-zz-zz-zz` is not a well-formed UUID (the model only counts the five
dash-separated groups). -/
theorem validate_message_accepts_invalid_input :
    except_is_ok (validate_message (sample_raw_message "TOTALLY_BOGUS")) = true ∧
      message_types.contains "TOTALLY_BOGUS" = false ∧
      spec_is_uuid_format "zz-zz-zz-zz-zz" = false := by
  refine ⟨?_, by decide, by decide⟩
  rfl

/-- Claim C5 (amended): `validate_message` rejects missing required fields,
out-of-range priorities and retry counts, unknown delivery guarantees, negative
timeouts, and ids without exactly five dash-separated groups; the message type
is NOT checked against the message-type enum — any string is accepted. -/
theorem validate_message_amended :
    (∀ (raw : Val) (m : MCPMessage), validate_message raw = .ok m →
      splitCount '-' m.id = 5 ∧ 0 ≤ m.context.timeout_ms ∧
      delivery_guarantees.contains m.delivery.guarantee = true ∧
      0 ≤ m.delivery.retry_count ∧ m.delivery.retry_count ≤ 10 ∧
      0 ≤ m.delivery.retry_delay_ms ∧
      0 ≤ m.delivery.priority ∧ m.delivery.priority ≤ 10) ∧
    (∀ message_type : String,
      validate_message (sample_raw_message message_type) =
        .ok (sample_message message_type)) := by
  constructor
  · intro raw m h
    unfold validate_message at h
    repeat' (split at h)
    all_goals try exact Except.noConfusion h
    all_goals injection h with h
    all_goals subst h
    refine ⟨by assumption, validate_context_sound _ _ (by assumption),
      validate_delivery_sound _ _ (by assumption)⟩
  · intro message_type
    rfl

/-- Witness for claim C5: the amended theorem applied to the accepted bogus
message, its hypothesis discharged by the acceptance part of the theorem. -/
theorem validate_message_amended_witness :
    splitCount '-' (sample_message "TOTALLY_BOGUS").id = 5 ∧
      0 ≤ (sample_message "TOTALLY_BOGUS").context.timeout_ms ∧
      delivery_guarantees.contains
          (sample_message "TOTALLY_BOGUS").delivery.guarantee = true ∧
      0 ≤ (sample_message "TOTALLY_BOGUS").delivery.retry_count ∧
      (sample_message "TOTALLY_BOGUS").delivery.retry_count ≤ 10 ∧
      0 ≤ (sample_message "TOTALLY_BOGUS").delivery.retry_delay_ms ∧
      0 ≤ (sample_message "TOTALLY_BOGUS").delivery.priority ∧
      (sample_message "TOTALLY_BOGUS").delivery.priority ≤ 10 :=
  validate_message_amended.1 (sample_raw_message "TOTALLY_BOGUS")
    (sample_message "TOTALLY_BOGUS") (validate_message_amended.2 "TOTALLY_BOGUS")

/-! ## Framed transport

Source: `src/py/mcp_core/transport/base.py` (`_create_error_response`) and
`src/py/mcp_core/transport/unix_socket.py` (`_dispatch_message`,
`UnixSocketConnection.send_message`). -/

def optStrVal : Option String → Val
  | none => Val.null
  | some s => Val.str s

def optDatetimeVal : Option Int → Val
  | none => Val.null
  | some t => Val.datetime t

def strMapVal (kvs : List (String × String)) : Val :=
  Val.dict (kvs.map (fun kv => (kv.1, Val.str kv.2)))

def strListVal (xs : List String) : Val :=
  Val.list (xs.map Val.str)

def dump_budget : Option CostBudget → Val
  | none => Val.null
  | some b =>
    Val.dict [("max_usd", Val.int b.max_usd), ("max_tokens", Val.int b.max_tokens),
              ("used_usd", Val.int b.used_usd), ("used_tokens", Val.int b.used_tokens),
              ("model_costs", Val.dict (b.model_costs.map (fun kv => (kv.1, Val.int kv.2))))]

def dump_limits : Option ResourceLimits → Val
  | none => Val.null
  | some l =>
    Val.dict [("max_cpu_percent", Val.int l.max_cpu_percent),
              ("max_memory_mb", Val.int l.max_memory_mb),
              ("max_concurrent_requests", Val.int l.max_concurrent_requests),
              ("max_processing_time_ms", Val.int l.max_processing_time_ms)]

def dump_context (c : MCPContext) : Val :=
  Val.dict [("trace_id", Val.str c.trace_id), ("span_id", Val.str c.span_id),
            ("parent_span_id", optStrVal c.parent_span_id),
            ("baggage", strMapVal c.baggage), ("user_id", optStrVal c.user_id),
            ("session_id", optStrVal c.session_id),
            ("workspace_id", optStrVal c.workspace_id),
            ("request_id", Val.str c.request_id),
            ("timeout_ms", Val.int c.timeout_ms), ("metadata", strMapVal c.metadata),
            ("budget", dump_budget c.budget), ("limits", dump_limits c.limits)]

def dump_delivery (d : DeliveryOptions) : Val :=
  Val.dict [("guarantee", Val.str d.guarantee), ("retry_count", Val.int d.retry_count),
            ("retry_delay_ms", Val.int d.retry_delay_ms),
            ("require_ack", Val.bool d.require_ack), ("priority", Val.int d.priority)]

/-- `message.model_dump()` in Python mode: field values keep their Python types,
in particular `created_at` stays a `datetime` object. -/
def dump_message (m : MCPMessage) : Val :=
  Val.dict [("id", Val.str m.id), ("correlation_id", optStrVal m.correlation_id),
            ("trace_id", Val.str m.trace_id), ("span_id", Val.str m.span_id),
            ("sender", Val.str m.sender), ("recipient", Val.str m.recipient),
            ("message_type", Val.str m.message_type), ("payload", m.payload),
            ("tags", strListVal m.tags), ("context", dump_context m.context),
            ("delivery", dump_delivery m.delivery),
            ("created_at", Val.datetime m.created_at),
            ("expires_at", optDatetimeVal m.expires_at),
            ("security_token", optStrVal m.security_token),
            ("permissions", strListVal m.permissions)]

mutual

/-- Whether `msgpack.packb` (as called by the transport: no `datetime=True`, no
`default=` hook) can serialize the value: it handles scalars, strings, lists
and dicts, and raises `TypeError` on `datetime` objects. -/
def msgpack_packable : Val → Bool
  | Val.null => true
  | Val.bool _ => true
  | Val.int _ => true
  | Val.str _ => true
  | Val.datetime _ => false
  | Val.list items => msgpack_packable_list items
  | Val.dict entries => msgpack_packable_entries entries

def msgpack_packable_list : List Val → Bool
  | [] => true
  | v :: rest => msgpack_packable v && msgpack_packable_list rest

def msgpack_packable_entries : List (String × Val) → Bool
  | [] => true
  | kv :: rest => msgpack_packable kv.2 && msgpack_packable_entries rest

end

theorem dump_message_not_packable (m : MCPMessage) :
    msgpack_packable (dump_message m) = false := by
  simp [dump_message, msgpack_packable, msgpack_packable_entries]

/-- `UnixSocketConnection.send_message`: validate `model_dump()`, then pack it
with MessagePack; a packing failure raises and is re-raised as a transport
error, so nothing is framed or written. -/
def transport_send_serialize (m : MCPMessage) : Except String Val :=
  match validate_message (dump_message m) with
  | .error e => .error ("Failed to send message: " ++ e)
  | .ok _ =>
    if msgpack_packable (dump_message m) then .ok (dump_message m)
    else .error "Failed to send message: can not serialize datetime object"

/-- Claim C8 is refuted by the code: for every message record, the send path
dumps `created_at` as a `datetime` object, which `msgpack.packb` cannot
serialize, so sending raises a transport error and no serialize/deserialize
round trip ever succeeds. -/
theorem send_message_never_serializes (m : MCPMessage) :
    except_is_ok (transport_send_serialize m) = false := by
  unfold transport_send_serialize
  split
  · rfl
  · rw [if_neg]
    · rfl
    · simp [dump_message_not_packable m]

/-- Python truthiness of `original.correlation_id or original.id`. -/
def correlation_or_id (corr : Option String) (idv : String) : String :=
  match corr with
  | some c => if c.length != 0 then c else idv
  | none => idv

/-- `model_dump()` of the `TaskResponse` built by `_create_error_response`:
status `FAILED`, zeroed metrics, the given error message and code. -/
def failed_task_response_payload (task_id error_message error_code : String) : Val :=
  Val.dict [("task_id", Val.str task_id), ("status", Val.str "FAILED"),
            ("result", Val.null), ("error_message", Val.str error_message),
            ("error_code", Val.str error_code),
            ("metrics", Val.dict
              [("processing_time_ms", Val.int 0), ("queue_time_ms", Val.int 0),
               ("retry_count", Val.int 0), ("cost_usd", Val.int 0),
               ("tokens_used", Val.int 0), ("model_used", Val.null),
               ("custom_metrics", Val.dict [])]),
            ("warnings", Val.list [])]

/-- `BaseMCPTransport._create_error_response` (the default `error_code` is
`ErrorCodes.INTERNAL_ERROR`): a task-response that preserves correlation id,
trace/span ids, context and delivery, and swaps sender with recipient. -/
def create_error_response (original : MCPMessage) (error_message error_code : String) :
    MCPMessage :=
  { id := "error_" ++ original.id
    correlation_id := some original.id
    trace_id := original.trace_id
    span_id := original.span_id
    sender := original.recipient
    recipient := original.sender
    message_type := "TASK_RESPONSE"
    payload := failed_task_response_payload
      (correlation_or_id original.correlation_id original.id) error_message error_code
    tags := ["error"]
    context := original.context
    delivery := original.delivery
    created_at := original.created_at
    expires_at := none
    security_token := none
    permissions := [] }

inductive MessageHandlerOutcome where
  | ok
  | exn (message : String)

/-- `MCPUnixSocketServer._dispatch_message`: annotate the message's context
metadata with the client id, call the handler, and on handler failure for a
task-request send back a synthesized failed task-response to that client.
Returns the list of (message, target client) pairs handed to the send path. -/
def annotate_client_metadata (m : MCPMessage) (client_id : String) : MCPMessage :=
  { m with context :=
      { m.context with metadata := setKey m.context.metadata "client_id" client_id } }

def dispatch_message (handler : MCPMessage → MessageHandlerOutcome) (m : MCPMessage)
    (client_id : String) : List (MCPMessage × String) :=
  match handler (annotate_client_metadata m client_id) with
  | .ok => []
  | .exn e =>
    if ["TASK_REQUEST"].contains (annotate_client_metadata m client_id).message_type then
      [(create_error_response (annotate_client_metadata m client_id) e "INTERNAL_ERROR",
        client_id)]
    else []

/-- Counterexample to claim C4: the server mutates the request's context
metadata (adding the `client_id` entry) before dispatching, so the error
response's context differs from the context of the message as received —
here the original metadata is empty. -/
theorem dispatch_error_response_context_differs :
    dispatch_message (fun _ => MessageHandlerOutcome.exn "boom")
        (sample_message "TASK_REQUEST") "client_42" =
      [(create_error_response
          (annotate_client_metadata (sample_message "TASK_REQUEST") "client_42")
          "boom" "INTERNAL_ERROR", "client_42")] ∧
      (create_error_response
          (annotate_client_metadata (sample_message "TASK_REQUEST") "client_42")
          "boom" "INTERNAL_ERROR").context ≠
        (sample_message "TASK_REQUEST").context := by
  refine ⟨rfl, ?_⟩
  decide

/-- Claim C4 (amended): on handler failure for a task-request the server sends
exactly one synthesized task-response back to the originating client, with
status `FAILED` and error code `INTERNAL_ERROR`, correlation id equal to the
original message id, trace and span ids preserved, sender and recipient
swapped, delivery options preserved, and the original context except that its
metadata carries the transport's `client_id` entry. -/
theorem dispatch_failed_task_request (handler : MCPMessage → MessageHandlerOutcome)
    (m : MCPMessage) (client_id e : String)
    (hmt : m.message_type = "TASK_REQUEST")
    (hh : handler (annotate_client_metadata m client_id) =
      MessageHandlerOutcome.exn e) :
    dispatch_message handler m client_id =
      [(create_error_response (annotate_client_metadata m client_id) e
          "INTERNAL_ERROR", client_id)] ∧
    (create_error_response (annotate_client_metadata m client_id) e
        "INTERNAL_ERROR").correlation_id = some m.id ∧
    (create_error_response (annotate_client_metadata m client_id) e
        "INTERNAL_ERROR").trace_id = m.trace_id ∧
    (create_error_response (annotate_client_metadata m client_id) e
        "INTERNAL_ERROR").span_id = m.span_id ∧
    (create_error_response (annotate_client_metadata m client_id) e
        "INTERNAL_ERROR").sender = m.recipient ∧
    (create_error_response (annotate_client_metadata m client_id) e
        "INTERNAL_ERROR").recipient = m.sender ∧
    (create_error_response (annotate_client_metadata m client_id) e
        "INTERNAL_ERROR").message_type = "TASK_RESPONSE" ∧
    (create_error_response (annotate_client_metadata m client_id) e
        "INTERNAL_ERROR").delivery = m.delivery ∧
    (create_error_response (annotate_client_metadata m client_id) e
        "INTERNAL_ERROR").context =
      { m.context with metadata := setKey m.context.metadata "client_id" client_id } ∧
    (match (create_error_response (annotate_client_metadata m client_id) e
        "INTERNAL_ERROR").payload with
     | Val.dict entries =>
       vLookup entries "status" = some (Val.str "FAILED") ∧
         vLookup entries "error_code" = some (Val.str "INTERNAL_ERROR") ∧
         vLookup entries "error_message" = some (Val.str e)
     | _ => False) := by
  refine ⟨?_, rfl, rfl, rfl, rfl, rfl, rfl, rfl, rfl, ?_⟩
  · unfold dispatch_message
    rw [hh]
    simp [annotate_client_metadata, hmt]
  · exact ⟨rfl, rfl, rfl⟩

/-- Witness for claim C4: the amended theorem at a concrete task-request whose
handler raises. -/
theorem dispatch_failed_task_request_witness :
    dispatch_message (fun _ => MessageHandlerOutcome.exn "boom")
        (sample_message "TASK_REQUEST") "client_7" =
      [(create_error_response
          (annotate_client_metadata (sample_message "TASK_REQUEST") "client_7")
          "boom" "INTERNAL_ERROR", "client_7")] :=
  (dispatch_failed_task_request (fun _ => MessageHandlerOutcome.exn "boom")
    (sample_message "TASK_REQUEST") "client_7" "boom" rfl rfl).1

/-! ## Worker bridge

Source: `src/py/mcp_core/bridge/python_bridge.py`
(`MCPPythonBridge._handle_task_request`, `_execute_agent_task`).  The bridge
constructs its wire messages as `MCPMessage(id=…, type=…, source=…, target=…,
payload=…, correlation_id=…, timestamp=…)`; those keyword names are checked
against the schema's `MCPMessage` model (which has `message_type`, `sender`,
`recipient`, `created_at`, and `extra="forbid"`), so construction is modelled
by validating the corresponding raw dict.  Exceptions raised inside the
handler (including `AttributeError` from the missing `TaskStatus.ACCEPTED`
member and pydantic validation errors) are caught by the surrounding
`try/except`, which only logs. -/

structure PyTaskRequest where
  task_type : String
  task_id : String
  parameters : Val
  priority : Int

structure BridgeState where
  registered_agents : List (String × (PyTaskRequest → Bool))
  active_tasks : List String

/-- The raw keyword dict of an `MCPMessage(...)` construction in the bridge. -/
def bridge_message_raw (idv ty source target : String) (payload : Val)
    (correlation_id : Option String) (timestamp : Int) : Val :=
  Val.dict
    ([("id", Val.str idv), ("type", Val.str ty), ("source", Val.str source),
      ("target", Val.str target), ("payload", payload)] ++
     (match correlation_id with
      | some c => [("correlation_id", Val.str c)]
      | none => []) ++
     [("timestamp", Val.datetime timestamp)])

/-- Constructing an `MCPMessage` from the bridge's keyword arguments =
validating the raw dict against the schema model. -/
def bridge_construct_message (idv ty source target : String) (payload : Val)
    (correlation_id : Option String) (timestamp : Int) : Except String MCPMessage :=
  validate_message (bridge_message_raw idv ty source target payload correlation_id
    timestamp)

theorem bridge_construct_message_always_rejected (idv ty source target : String)
    (payload : Val) (correlation_id : Option String) (timestamp : Int) :
    except_is_ok (bridge_construct_message idv ty source target payload
      correlation_id timestamp) = false := by
  cases correlation_id <;> rfl

def no_capable_agent_payload (task_id : String) : Val :=
  Val.dict [("task_id", Val.str task_id), ("status", Val.str "FAILED"),
            ("error", Val.str "No capable Python agent found")]

def acceptance_payload (task_id status assigned_agent : String) : Val :=
  Val.dict [("task_id", Val.str task_id), ("status", Val.str status),
            ("assigned_agent", Val.str assigned_agent),
            ("estimated_completion", Val.null)]

def running_payload (task_id agent_name : String) : Val :=
  Val.dict [("task_id", Val.str task_id), ("status", Val.str "RUNNING"),
            ("agent", Val.str agent_name)]

def execution_failed_payload (task_id error_message agent_name : String) : Val :=
  Val.dict [("task_id", Val.str task_id), ("status", Val.str "FAILED"),
            ("error", Val.str error_message), ("agent", Val.str agent_name)]

/-- `MCPPythonBridge._handle_task_request`: find capable agents, report failure
when none, otherwise pick the first, register the spawned execution in the
active-tasks map, and send the acceptance response (whose payload evaluates
`TaskStatus.ACCEPTED.value`).  Returns the messages actually sent by the
handler and the new bridge state. -/
def handle_task_request (st : BridgeState) (req : PyTaskRequest)
    (msg_source msg_id fresh_id : String) (now : Int) :
    List MCPMessage × BridgeState :=
  match st.registered_agents.filter (fun a => a.2 req) with
  | [] =>
    match bridge_construct_message fresh_id "task_response" "python-bridge" msg_source
        (no_capable_agent_payload req.task_id) (some msg_id) now with
    | .ok msg => ([msg], st)
    | .error _ => ([], st)
  | (agent_name, _) :: _ =>
    match task_status_attr "ACCEPTED" with
    | none => ([], { st with active_tasks := st.active_tasks ++ [req.task_id] })
    | some status =>
      match bridge_construct_message fresh_id "task_response" "python-bridge"
          msg_source (acceptance_payload req.task_id status agent_name)
          (some msg_id) now with
      | .ok msg => ([msg], { st with active_tasks := st.active_tasks ++ [req.task_id] })
      | .error _ => ([], { st with active_tasks := st.active_tasks ++ [req.task_id] })

/-- Outcome of `await agent.execute_task(task)`. -/
inductive AgentExecOutcome where
  | ok (response_dump : Val)
  | exn (message : String)

/-- The `except` branch of `_execute_agent_task`: try to send the failed
response; a failure there escapes the activity (third component `true`), and in
neither case is the task id removed from the active-tasks map. -/
def bridge_error_branch (sent : List MCPMessage) (st : BridgeState)
    (req : PyTaskRequest) (agent_name response_target correlation_id err_id : String)
    (e : String) (now : Int) : List MCPMessage × BridgeState × Bool :=
  match bridge_construct_message err_id "task_response" "python-bridge"
      response_target (execution_failed_payload req.task_id e agent_name)
      (some correlation_id) now with
  | .ok msg => (sent ++ [msg], st, false)
  | .error _ => (sent, st, true)

/-- `MCPPythonBridge._execute_agent_task`: send a running update, execute the
agent, send the terminal response and only then delete the task id from the
active-tasks map; any exception diverts to the `except` branch, which sends a
failed response but never deletes the task id.  Returns the sent messages, the
final state, and whether an exception escaped the activity. -/
def execute_agent_task (st : BridgeState) (agent_name : String) (req : PyTaskRequest)
    (agent_outcome : AgentExecOutcome)
    (response_target correlation_id run_id done_id err_id : String) (now : Int) :
    List MCPMessage × BridgeState × Bool :=
  match bridge_construct_message run_id "task_response" "python-bridge"
      response_target (running_payload req.task_id agent_name)
      (some correlation_id) now with
  | .error e =>
    bridge_error_branch [] st req agent_name response_target correlation_id err_id e now
  | .ok running_msg =>
    match agent_outcome with
    | .exn e =>
      bridge_error_branch [running_msg] st req agent_name response_target
        correlation_id err_id e now
    | .ok response_dump =>
      match bridge_construct_message done_id "task_response" "python-bridge"
          response_target response_dump (some correlation_id) now with
      | .error e =>
        bridge_error_branch [running_msg] st req agent_name response_target
          correlation_id err_id e now
      | .ok done_msg =>
        ([running_msg, done_msg],
         { st with active_tasks := st.active_tasks.filter (fun t => t ≠ req.task_id) },
         false)

def c2_request : PyTaskRequest :=
  { task_type := "custom.embed", task_id := "T1", parameters := Val.null,
    priority := 5 }

def c2_can_handle : PyTaskRequest → Bool :=
  fun r => r.task_type == "custom.embed"

def c2_bridge_state : BridgeState :=
  { registered_agents := [("embedder", c2_can_handle)], active_tasks := [] }

/-- Claim C2 is refuted by the code: for a task_request that a registered agent
can handle, the handler sends no acceptance at all — `TaskStatus.ACCEPTED` is
not a member of the status enum, so building the acceptance payload raises and
the exception is swallowed — while the execution task has already been
registered in the active-tasks map. -/
theorem bridge_task_request_sends_no_acceptance :
    c2_can_handle c2_request = true ∧
      (handle_task_request c2_bridge_state c2_request "node-orchestrator" "M1" "A1"
        0).1 = [] ∧
      (handle_task_request c2_bridge_state c2_request "node-orchestrator" "M1" "A1"
        0).2.active_tasks = ["T1"] :=
  ⟨rfl, rfl, rfl⟩

def c10_state : BridgeState :=
  { registered_agents := [("embedder", c2_can_handle)], active_tasks := ["T1"] }

/-- Claim C10 is refuted by the code: the execution activity never reaches the
cleanup — every bridge message construction is rejected by the schema model, so
the running update raises, the `except` branch's own construction raises too,
and the activity dies having sent no terminal response and leaving the task id
in the active-tasks map (the map is also not cleaned in the `except` branch). -/
theorem bridge_execution_leaves_task_registered :
    (execute_agent_task c10_state "embedder" c2_request
        (AgentExecOutcome.ok (Val.dict [("task_id", Val.str "T1"),
          ("status", Val.str "COMPLETED")]))
        "node-orchestrator" "M1" "R1" "D1" "E1" 0).1 = [] ∧
      (execute_agent_task c10_state "embedder" c2_request
        (AgentExecOutcome.ok (Val.dict [("task_id", Val.str "T1"),
          ("status", Val.str "COMPLETED")]))
        "node-orchestrator" "M1" "R1" "D1" "E1" 0).2.1.active_tasks = ["T1"] ∧
      (execute_agent_task c10_state "embedder" c2_request
        (AgentExecOutcome.ok (Val.dict [("task_id", Val.str "T1"),
          ("status", Val.str "COMPLETED")]))
        "node-orchestrator" "M1" "R1" "D1" "E1" 0).2.2 = true :=
  ⟨rfl, rfl, rfl⟩
